import Mathlib

/-!
Verification of the statistics-resolution core of `src/osu_lib/calculator.py`.

The Python code is shallowly embedded: Python `int` values become `ℤ`,
Python `float` values become `ℚ` (the arithmetic performed by the code is
exact on the inputs considered, so rational arithmetic is the intended
model), Python `dict`/attribute statistics objects become an `Option Stats`
record in which an absent field reads as the default `0` (mirroring
`_extract_stat`), and Python exceptions become `Except String`.
-/

/-- Python's built-in `round` (banker's rounding, round-half-to-even),
as used by `int(round(x))` in the simulators. -/
def pyRound (q : ℚ) : ℤ :=
  if q - ⌊q⌋ < 1/2 then ⌊q⌋
  else if 1/2 < q - ⌊q⌋ then ⌊q⌋ + 1
  else if ⌊q⌋ % 2 = 0 then ⌊q⌋ else ⌊q⌋ + 1

theorem floor_le_pyRound (q : ℚ) : ⌊q⌋ ≤ pyRound q := by
  unfold pyRound; split_ifs <;> omega

theorem pyRound_le_floor_add_one (q : ℚ) : pyRound q ≤ ⌊q⌋ + 1 := by
  unfold pyRound; split_ifs <;> omega

theorem pyRound_nonneg {q : ℚ} (h : 0 ≤ q) : 0 ≤ pyRound q :=
  le_trans (Int.floor_nonneg.mpr h) (floor_le_pyRound q)

theorem pyRound_le_of_le {q : ℚ} {n : ℤ} (h : q ≤ (n : ℚ)) : pyRound q ≤ n := by
  have hf : ⌊q⌋ ≤ n := by
    have := Int.floor_le_floor h
    simpa using this
  unfold pyRound
  split_ifs with h1 h2 h3
  · exact hf
  · have hq : (⌊q⌋ : ℚ) + 1/2 < q := by linarith
    have : (⌊q⌋ : ℚ) < (n : ℚ) := by linarith
    have : ⌊q⌋ < n := by exact_mod_cast this
    omega
  · exact hf
  · have hq : q - ⌊q⌋ = 1/2 := le_antisymm (not_lt.mp h2) (not_lt.mp h1)
    have : (⌊q⌋ : ℚ) < (n : ℚ) := by linarith
    have : ⌊q⌋ < n := by exact_mod_cast this
    omega

theorem pyRound_mono {x y : ℚ} (h : x ≤ y) : pyRound x ≤ pyRound y := by
  rcases lt_or_le ⌊x⌋ ⌊y⌋ with hf | hf
  · calc pyRound x ≤ ⌊x⌋ + 1 := pyRound_le_floor_add_one x
      _ ≤ ⌊y⌋ := hf
      _ ≤ pyRound y := floor_le_pyRound y
  · have he : ⌊x⌋ = ⌊y⌋ := le_antisymm (Int.floor_le_floor h) hf
    unfold pyRound
    rw [← he]
    have hxy : x - (⌊x⌋ : ℚ) ≤ y - (⌊x⌋ : ℚ) := by linarith
    split_ifs <;> first | omega | (exfalso; linarith)

theorem pyRound_intCast (n : ℤ) : pyRound (n : ℚ) = n := by
  unfold pyRound
  rw [Int.floor_intCast]
  norm_num

example : pyRound (7/2) = 4 := by norm_num [pyRound]
example : pyRound (5/2) = 2 := by norm_num [pyRound]
example : pyRound (-1 : ℚ) = -1 := by norm_num [pyRound]
example : pyRound (100 : ℚ) = 100 := by norm_num [pyRound]

/-! ## Data model

`Stats` embeds the duck-typed explicit-statistics object.  `_extract_stat`
returns `0` for an absent field, so every semantic field is a total `ℤ`
field whose value is the extracted one; a wholly absent (or empty, hence
falsy) statistics object is `Option.none`. -/

/-- Explicit statistics object (`statistics` argument of `calculate`),
with the semantic fields probed by the source. -/
structure Stats where
  great : ℤ
  ok : ℤ
  meh : ℤ
  good : ℤ
  perfect : ℤ
  miss : ℤ
  large_tick_hit : ℤ
  small_tick_hit : ℤ
  small_tick_miss : ℤ
deriving DecidableEq

/-- `_extract_stat(stats_obj, field)`: field lookup with default `0` when
the object is absent. -/
def extractStat (stats : Option Stats) (f : Stats → ℤ) : ℤ :=
  match stats with
  | none => 0
  | some s => f s

/-- `_has_valid_stats` inner probe over one present object: at least one of
`great, ok, meh, good, perfect, miss, large_tick_hit` strictly positive. -/
def statsValid (s : Stats) : Bool :=
  decide (0 < s.great) || decide (0 < s.ok) || decide (0 < s.meh) ||
  decide (0 < s.good) || decide (0 < s.perfect) || decide (0 < s.miss) ||
  decide (0 < s.large_tick_hit)

/-- `_has_valid_stats(stats_obj)`: `False` for an absent/empty object,
otherwise the validity probe. -/
def hasValidStats : Option Stats → Bool
  | none => false
  | some s => statsValid s

/-- Effective miss count resolution in `calculate`:
`effective_misses = statistics.miss` when the probe passes, else the
caller-supplied `misses`. -/
def effectiveMisses (misses : ℤ) (stats : Option Stats) : ℤ :=
  if hasValidStats stats then extractStat stats Stats.miss else misses

/-! ## Standard-mode simulator (`_sim_osu`)

Judgment counts for one mode are records of `ℤ` counts; a key absent from
the returned Python dict reads as count `0`. -/

/-- Standard-mode judgment counts `{Great, Ok, Meh, Miss}`. -/
structure OsuCounts where
  great : ℤ
  ok : ℤ
  meh : ℤ
  miss : ℤ
deriving DecidableEq

/-- Band `rel_acc >= 0.25`: `ratio = (1 - (rel_acc - 0.25)/0.75)**2`. -/
def osuRatioHigh (relAcc : ℚ) : ℚ := (1 - (relAcc - 1/4) / (3/4)) ^ 2

/-- Band `rel_acc >= 0.25`: `c100 = 6*relevant*(1-rel_acc)/(5*ratio+4)`. -/
def c100High (relAcc : ℚ) (relevant : ℤ) : ℚ :=
  6 * (relevant : ℚ) * (1 - relAcc) / (5 * osuRatioHigh relAcc + 4)

/-- Band `rel_acc >= 0.25`: `c50 = c100 * ratio`. -/
def c50High (relAcc : ℚ) (relevant : ℤ) : ℚ :=
  c100High relAcc relevant * osuRatioHigh relAcc

/-- Band `rel_acc >= 0.25`: `n100 = int(round(c100))`. -/
def n100High (relAcc : ℚ) (relevant : ℤ) : ℤ := pyRound (c100High relAcc relevant)

/-- Band `rel_acc >= 0.25`: `n50 = int(round(c100 + c50) - n100)`. -/
def n50High (relAcc : ℚ) (relevant : ℤ) : ℤ :=
  pyRound (c100High relAcc relevant + c50High relAcc relevant) - n100High relAcc relevant

/-- `_sim_osu` result in the band `rel_acc >= 0.25`:
`n300 = total - n100 - n50 - misses`, all counts clamped to `max 0 _`. -/
def osuBandHigh (relAcc : ℚ) (total misses relevant : ℤ) : OsuCounts :=
  ⟨max 0 (total - n100High relAcc relevant - n50High relAcc relevant - misses),
   max 0 (n100High relAcc relevant),
   max 0 (n50High relAcc relevant),
   max 0 misses⟩

/-- Band `1/6 <= rel_acc < 0.25`: `c100 = 6*relevant*rel_acc - relevant`. -/
def c100Mid (relAcc : ℚ) (relevant : ℤ) : ℚ :=
  6 * (relevant : ℚ) * relAcc - (relevant : ℚ)

/-- Band `1/6 <= rel_acc < 0.25`: `c50 = relevant - c100`. -/
def c50Mid (relAcc : ℚ) (relevant : ℤ) : ℚ :=
  (relevant : ℚ) - c100Mid relAcc relevant

/-- Band `1/6 <= rel_acc < 0.25`: `n100 = int(round(c100))`. -/
def n100Mid (relAcc : ℚ) (relevant : ℤ) : ℤ := pyRound (c100Mid relAcc relevant)

/-- Band `1/6 <= rel_acc < 0.25`: `n50 = int(round(c100 + c50) - n100)`. -/
def n50Mid (relAcc : ℚ) (relevant : ℤ) : ℤ :=
  pyRound (c100Mid relAcc relevant + c50Mid relAcc relevant) - n100Mid relAcc relevant

/-- `_sim_osu` result in the band `1/6 <= rel_acc < 0.25`. -/
def osuBandMid (relAcc : ℚ) (total misses relevant : ℤ) : OsuCounts :=
  ⟨max 0 (total - n100Mid relAcc relevant - n50Mid relAcc relevant - misses),
   max 0 (n100Mid relAcc relevant),
   max 0 (n50Mid relAcc relevant),
   max 0 misses⟩

/-- Band `rel_acc < 1/6`: `c50 = 6*relevant*rel_acc`, `n50 = int(round(c50))`. -/
def n50Low (relAcc : ℚ) (relevant : ℤ) : ℤ := pyRound (6 * (relevant : ℚ) * relAcc)

/-- `_sim_osu` result in the band `rel_acc < 1/6`: the code reassigns
`misses = total - n50` and computes `n300 = total - n100 - n50 - misses`
with `n100 = 0`. -/
def osuBandLow (relAcc : ℚ) (total relevant : ℤ) : OsuCounts :=
  ⟨max 0 (total - 0 - n50Low relAcc relevant - (total - n50Low relAcc relevant)),
   max 0 0,
   max 0 (n50Low relAcc relevant),
   max 0 (total - n50Low relAcc relevant)⟩

/-- The clamped rescaled accuracy
`rel_acc = max(0.0, min(1.0, accuracy * total / relevant))`. -/
def relAccOf (acc : ℚ) (total relevant : ℤ) : ℚ :=
  max 0 (min 1 (acc / 100 * (total : ℚ) / (relevant : ℚ)))

/-- `_sim_osu` fallback simulation (no valid explicit statistics):
`relevant = total - misses`; early `{Miss: misses}` return when
`relevant <= 0`; otherwise one of the three accuracy bands. -/
def simOsuFallback (acc : ℚ) (total misses : ℤ) : OsuCounts :=
  if total - misses ≤ 0 then ⟨0, 0, 0, misses⟩
  else
    if 1/4 ≤ relAccOf acc total (total - misses) then
      osuBandHigh (relAccOf acc total (total - misses)) total misses (total - misses)
    else if 1/6 ≤ relAccOf acc total (total - misses) then
      osuBandMid (relAccOf acc total (total - misses)) total misses (total - misses)
    else
      osuBandLow (relAccOf acc total (total - misses)) total (total - misses)

/-- `_sim_osu(acc, beatmap, misses, stats_obj)`, with
`total = beatmap.HitObjects.Count`: explicit statistics returned verbatim
when valid, otherwise the fallback simulation. -/
def simOsu (acc : ℚ) (total misses : ℤ) (stats : Option Stats) : OsuCounts :=
  if hasValidStats stats then
    ⟨extractStat stats Stats.great, extractStat stats Stats.ok,
     extractStat stats Stats.meh, extractStat stats Stats.miss⟩
  else simOsuFallback acc total misses

/-! ## Taiko-mode simulator (`_sim_taiko`) -/

/-- Taiko-mode judgment counts `{Great, Ok, Miss}`. -/
structure TaikoCounts where
  great : ℤ
  ok : ℤ
  miss : ℤ
deriving DecidableEq

/-- Taiko fallback: `n_great = int(round((2*accuracy - 1) * relevant))`. -/
def nGreatTaiko (acc : ℚ) (total misses : ℤ) : ℤ :=
  pyRound ((2 * (acc / 100) - 1) * ((total - misses : ℤ) : ℚ))

/-- `_sim_taiko` fallback: `n_good = relevant - n_great`, clamped counts. -/
def simTaikoFallback (acc : ℚ) (total misses : ℤ) : TaikoCounts :=
  ⟨max 0 (nGreatTaiko acc total misses),
   max 0 ((total - misses) - nGreatTaiko acc total misses),
   max 0 misses⟩

/-- `_sim_taiko(acc, beatmap, misses, stats_obj)`. -/
def simTaiko (acc : ℚ) (total misses : ℤ) (stats : Option Stats) : TaikoCounts :=
  if hasValidStats stats then
    ⟨extractStat stats Stats.great, extractStat stats Stats.ok,
     extractStat stats Stats.miss⟩
  else simTaikoFallback acc total misses

/-! ## Mania-mode simulator (`_sim_mania`) -/

/-- Mania-mode judgment counts `{Perfect, Great, Good, Ok, Meh, Miss}`. -/
structure ManiaCounts where
  perfect : ℤ
  great : ℤ
  good : ℤ
  ok : ℤ
  meh : ℤ
  miss : ℤ
deriving DecidableEq

/-- One Mania band split: upper tier `int(round(p * relevant))`, lower tier
`relevant -` upper tier. -/
def maniaSplit (p : ℚ) (relevant : ℤ) : ℤ × ℤ :=
  (pyRound (p * (relevant : ℚ)), relevant - pyRound (p * (relevant : ℚ)))

/-- The five Mania accuracy bands (`accuracy = acc / 100` is the band key),
producing the six unclamped tier counts, taken when `relevant > 0`. -/
def maniaBands (a : ℚ) (relevant : ℤ) : ℤ × ℤ × ℤ × ℤ × ℤ :=
  if 96/100 ≤ a then
    ((maniaSplit (1 - (1 - a) / (4/100)) relevant).1,
     (maniaSplit (1 - (1 - a) / (4/100)) relevant).2, 0, 0, 0)
  else if 90/100 ≤ a then
    (0, (maniaSplit (1 - (96/100 - a) / (6/100)) relevant).1,
     (maniaSplit (1 - (96/100 - a) / (6/100)) relevant).2, 0, 0)
  else if 80/100 ≤ a then
    (0, 0, (maniaSplit (1 - (90/100 - a) / (10/100)) relevant).1,
     (maniaSplit (1 - (90/100 - a) / (10/100)) relevant).2, 0)
  else if 60/100 ≤ a then
    (0, 0, 0, (maniaSplit (1 - (80/100 - a) / (20/100)) relevant).1,
     (maniaSplit (1 - (80/100 - a) / (20/100)) relevant).2)
  else
    (0, 0, 0, 0, relevant)

/-- `_sim_mania` fallback: tier counts stay `0` unless `relevant > 0`, and
every returned count is clamped with `max(0, _)`. -/
def simManiaFallback (acc : ℚ) (total misses : ℤ) : ManiaCounts :=
  if 0 < total - misses then
    ⟨max 0 (maniaBands (acc / 100) (total - misses)).1,
     max 0 (maniaBands (acc / 100) (total - misses)).2.1,
     max 0 (maniaBands (acc / 100) (total - misses)).2.2.1,
     max 0 (maniaBands (acc / 100) (total - misses)).2.2.2.1,
     max 0 (maniaBands (acc / 100) (total - misses)).2.2.2.2,
     max 0 misses⟩
  else ⟨max 0 0, max 0 0, max 0 0, max 0 0, max 0 0, max 0 misses⟩

/-- `_sim_mania(acc, beatmap, misses, score_val, stats_obj)`; `score_val`
is accepted but unused by the math. -/
def simMania (acc : ℚ) (total misses : ℤ) (scoreVal : Option ℤ)
    (stats : Option Stats) : ManiaCounts :=
  if hasValidStats stats then
    ⟨extractStat stats Stats.perfect, extractStat stats Stats.great,
     extractStat stats Stats.good, extractStat stats Stats.ok,
     extractStat stats Stats.meh, extractStat stats Stats.miss⟩
  else simManiaFallback acc total misses

/-! ## Catch-mode simulator (`_sim_catch`) -/

/-- A nested hit object inside a `JuiceStream`.  `TinyDroplet` subclasses
`Droplet` in the source engine, which is why the code tests it first and
counts it into both droplet tallies; the embedding keeps them as distinct
variants with the same double-counting in `catchMaxCounts`. -/
inductive CatchNested where
  | tinyDroplet
  | droplet
  | nestedFruit
  | otherNested
deriving DecidableEq

/-- A top-level Catch hit object: a `Fruit`, a `JuiceStream` with nested
objects, or anything else (e.g. a banana shower), which the loop ignores. -/
inductive CatchObject where
  | fruit
  | juiceStream (nested : List CatchNested)
  | otherObject
deriving DecidableEq

/-- The three chart-derived maxima accumulated by the `_sim_catch` loop. -/
structure CatchMax where
  maxFruits : ℤ
  maxDropletsTotal : ℤ
  maxTinyDroplets : ℤ
deriving DecidableEq

/-- One step of the inner nested-object loop of `_sim_catch`. -/
def catchNestedStep (m : CatchMax) (n : CatchNested) : CatchMax :=
  match n with
  | .tinyDroplet => ⟨m.maxFruits, m.maxDropletsTotal + 1, m.maxTinyDroplets + 1⟩
  | .droplet => ⟨m.maxFruits, m.maxDropletsTotal + 1, m.maxTinyDroplets⟩
  | .nestedFruit => ⟨m.maxFruits + 1, m.maxDropletsTotal, m.maxTinyDroplets⟩
  | .otherNested => m

/-- One step of the outer hit-object loop of `_sim_catch`. -/
def catchObjectStep (m : CatchMax) (h : CatchObject) : CatchMax :=
  match h with
  | .fruit => ⟨m.maxFruits + 1, m.maxDropletsTotal, m.maxTinyDroplets⟩
  | .juiceStream ns => ns.foldl catchNestedStep m
  | .otherObject => m

/-- The `max_fruits / max_droplets_total / max_tiny_droplets` walk over
`beatmap.HitObjects`. -/
def catchMaxCounts (objs : List CatchObject) : CatchMax :=
  objs.foldl catchObjectStep ⟨0, 0, 0⟩

/-- Catch-mode judgment counts
`{Great, LargeTickHit, SmallTickHit, SmallTickMiss, Miss}` (the fallback
dict carries no `SmallTickMiss` key, i.e. count `0`). -/
structure CatchCounts where
  great : ℤ
  largeTickHit : ℤ
  smallTickHit : ℤ
  smallTickMiss : ℤ
  miss : ℤ
deriving DecidableEq

/-- `_sim_catch` fallback: `max_droplets = max_droplets_total -
max_tiny_droplets`; `count_droplets = max(0, max_droplets - misses)`;
fruits and tiny droplets assumed all hit; accuracy never consulted. -/
def simCatchFallback (objs : List CatchObject) (misses : ℤ) : CatchCounts :=
  ⟨(catchMaxCounts objs).maxFruits,
   max 0 ((catchMaxCounts objs).maxDropletsTotal -
          (catchMaxCounts objs).maxTinyDroplets - misses),
   (catchMaxCounts objs).maxTinyDroplets,
   0,
   misses⟩

/-- `_sim_catch(acc, beatmap, misses, stats_obj)`. -/
def simCatch (acc : ℚ) (objs : List CatchObject) (misses : ℤ)
    (stats : Option Stats) : CatchCounts :=
  if hasValidStats stats then
    ⟨extractStat stats Stats.great, extractStat stats Stats.large_tick_hit,
     extractStat stats Stats.small_tick_hit, extractStat stats Stats.small_tick_miss,
     extractStat stats Stats.miss⟩
  else simCatchFallback objs misses

/-! ## Orchestrator (`calculate`)

The external collaborators (beatmap decoder, converter, difficulty and
performance engines, mod catalog) are opaque services; each fallible call
is a field of `Externals` returning `Except String _`, where
`Except.error` models a raised Python exception.  `os.path.abspath` and
`os.path.exists` are likewise environment facts, passed in as the resolved
absolute path and its existence flag. -/

/-- The decoded (and possibly mode-converted) chart.  Only the hit-object
list is consumed by the core: its length is `beatmap.HitObjects.Count` and,
for Catch, the objects themselves are walked. -/
structure Beatmap where
  hitObjects : List CatchObject
deriving DecidableEq

/-- `beatmap.HitObjects.Count`. -/
def Beatmap.objectCount (b : Beatmap) : ℤ := b.hitObjects.length

/-- Difficulty attributes returned by the external difficulty engine. -/
structure DiffAttrs where
  starRating : ℚ
  maxCombo : ℤ
deriving DecidableEq

/-- Performance attributes returned by the external performance engine. -/
structure PerfAttrs where
  total : ℚ
deriving DecidableEq

/-- The per-mode statistics dictionary built in step 3 of `calculate`. -/
inductive ModeStats where
  | osu (c : OsuCounts)
  | taiko (c : TaikoCounts)
  | ctb (c : CatchCounts)
  | mania (c : ManiaCounts)
  | empty
deriving DecidableEq

/-- The score record handed to the performance engine. -/
structure ScoreRec where
  mods : List String
  maxCombo : ℤ
  accuracy : ℚ
  statistics : ModeStats

/-- The external collaborators of one `calculate` call.  Any of the
`Except`-returning fields may fail, modelling a raised exception inside
the `try` block. -/
structure Externals where
  decode : Except String Beatmap
  canConvert : Beatmap → Bool
  convert : Beatmap → Except String Beatmap
  availableMods : List String
  computeDifficulty : Beatmap → List String → Except String DiffAttrs
  computePerformance : ScoreRec → DiffAttrs → Except String PerfAttrs

/-- `_parse_mods`: case-insensitive lookup of each acronym in the ruleset's
available mods; unknown acronyms are skipped (with a warning). -/
def parseMods (avail : List String) (mods : List String) : List String :=
  mods.filterMap (fun m => avail.find? (fun x => x.toUpper == m.toUpper))

/-- The successful result dict of `calculate`. -/
structure CalcSuccess where
  mode : ℤ
  stars : ℚ
  pp : ℚ
  max_combo : ℤ
  stats_used : ModeStats

/-- `calculate` returns either the result dict or an `{"error": msg}`
dict; it never lets an exception escape. -/
inductive CalcResult where
  | ok (r : CalcSuccess)
  | error (msg : String)

/-- Steps 2-9 of `calculate`: the body of the `try` block (decode, convert,
mods, difficulty, effective-miss resolution, mode dispatch, score record,
performance).  A failing external call short-circuits with its message. -/
def calcPipeline (ext : Externals) (mode : ℤ) (mods : List String) (acc : ℚ)
    (combo : Option ℤ) (misses : ℤ) (scoreVal : Option ℤ)
    (stats : Option Stats) : Except String CalcSuccess := do
  let decoded ← ext.decode
  let bm ← if ext.canConvert decoded then ext.convert decoded else pure decoded
  let csMods := parseMods ext.availableMods mods
  let diffAttr ← ext.computeDifficulty bm csMods
  let effMisses := effectiveMisses misses stats
  let judged : ModeStats :=
    if mode = 0 then ModeStats.osu (simOsu acc bm.objectCount effMisses stats)
    else if mode = 1 then ModeStats.taiko (simTaiko acc bm.objectCount effMisses stats)
    else if mode = 2 then ModeStats.ctb (simCatch acc bm.hitObjects effMisses stats)
    else if mode = 3 then ModeStats.mania (simMania acc bm.objectCount effMisses scoreVal stats)
    else ModeStats.empty
  let score : ScoreRec :=
    ⟨csMods, (match combo with | some c => c | none => diffAttr.maxCombo),
     acc / 100, judged⟩
  let perfAttr ← ext.computePerformance score diffAttr
  pure ⟨mode, diffAttr.starRating, perfAttr.total, diffAttr.maxCombo, judged⟩

/-- `calculate(file_path, mode, mods, acc, combo, misses, score_val,
statistics)`: path existence check, mode lookup, then the guarded
pipeline whose exceptions become `{"error": str(e)}`. -/
def calculate (ext : Externals) (pathExists : Bool) (absPath : String)
    (mode : ℤ) (mods : List String) (acc : ℚ) (combo : Option ℤ)
    (misses : ℤ) (scoreVal : Option ℤ) (stats : Option Stats) : CalcResult :=
  if pathExists = false then CalcResult.error ("File not found: " ++ absPath)
  else if mode ≠ 0 ∧ mode ≠ 1 ∧ mode ≠ 2 ∧ mode ≠ 3 then CalcResult.error "Invalid mode"
  else
    match calcPipeline ext mode mods acc combo misses scoreVal stats with
    | Except.ok r => CalcResult.ok r
    | Except.error e => CalcResult.error e

/-! ## Claim theorems -/

/-- C3: for every accuracy, when the explicit statistics object passes the
validity probe, `_sim_osu` returns exactly the explicit
great/ok/meh/miss values (absent fields defaulting to 0) with no
simulation or rebalancing; in particular `great=50, miss=2` (others 0)
yields exactly `{Great:50, Ok:0, Meh:0, Miss:2}` for every accuracy. -/
theorem osu_explicit_stats_verbatim :
    (∀ (acc : ℚ) (total misses : ℤ) (st : Stats),
      hasValidStats (some st) = true →
      simOsu acc total misses (some st) = ⟨st.great, st.ok, st.meh, st.miss⟩) ∧
    (∀ (acc : ℚ) (total misses : ℤ),
      simOsu acc total misses (some ⟨50, 0, 0, 0, 0, 2, 0, 0, 0⟩) = ⟨50, 0, 0, 2⟩) := by
  constructor
  · intro acc total misses st h
    simp [simOsu, h, extractStat]
  · intro acc total misses
    have hv : hasValidStats (some ⟨50, 0, 0, 0, 0, 2, 0, 0, 0⟩) = true := by decide
    simp [simOsu, hv, extractStat]

/-- Witness for C3 at a concrete input. -/
theorem osu_explicit_stats_verbatim_witness :
    simOsu 37 100 7 (some ⟨50, 0, 0, 0, 0, 2, 0, 0, 0⟩) = ⟨50, 0, 0, 2⟩ :=
  osu_explicit_stats_verbatim.1 37 100 7 ⟨50, 0, 0, 0, 0, 2, 0, 0, 0⟩ (by decide)

/-- C4: an explicit statistics object is usable iff at least one of
`great, ok, meh, good, perfect, miss, large_tick_hit` is strictly
positive (absent object: never usable), and the orchestrator's effective
miss count is the explicit `miss` field exactly when the probe passes,
the caller-supplied count otherwise. -/
theorem validity_probe_and_effective_misses (st : Stats) (m : ℤ) :
    (hasValidStats (some st) = true ↔
      (0 < st.great ∨ 0 < st.ok ∨ 0 < st.meh ∨ 0 < st.good ∨ 0 < st.perfect ∨
       0 < st.miss ∨ 0 < st.large_tick_hit)) ∧
    hasValidStats none = false ∧
    effectiveMisses m (some st) =
      (if hasValidStats (some st) = true then st.miss else m) ∧
    effectiveMisses m none = m := by
  refine ⟨?_, rfl, ?_, rfl⟩
  · simp [hasValidStats, statsValid, or_assoc]
  · by_cases h : hasValidStats (some st) = true
    · simp [effectiveMisses, h, extractStat]
    · simp only [Bool.not_eq_true] at h
      simp [effectiveMisses, h, extractStat]

/-- C5: whenever `total - misses <= 0`, the Standard fallback takes the
early boundary return (so no division is attempted) and yields
`{Miss: misses}` with Great, Ok and Meh all 0. -/
theorem osu_boundary_relevant_nonpos (acc : ℚ) (total misses : ℤ)
    (h : total - misses ≤ 0) :
    simOsu acc total misses none = ⟨0, 0, 0, misses⟩ := by
  simp [simOsu, hasValidStats, simOsuFallback, h]

/-- Witness for C5 at `total = misses = 5`. -/
theorem osu_boundary_relevant_nonpos_witness :
    simOsu 100 5 5 none = ⟨0, 0, 0, 5⟩ :=
  osu_boundary_relevant_nonpos 100 5 5 (by decide)

/-- C10: a Catch explicit object whose only positive fields are
`small_tick_hit`/`small_tick_miss` fails the validity probe, so the
explicit breakdown is discarded: `_sim_catch` behaves exactly as with no
statistics and the effective miss count stays the caller-supplied one. -/
theorem catch_small_tick_only_uses_fallback (st : Stats) (acc : ℚ)
    (objs : List CatchObject) (m : ℤ)
    (hg : st.great = 0) (ho : st.ok = 0) (hme : st.meh = 0) (hgd : st.good = 0)
    (hpf : st.perfect = 0) (hmi : st.miss = 0) (hl : st.large_tick_hit = 0)
    (hst : 0 < st.small_tick_hit ∨ 0 < st.small_tick_miss) :
    hasValidStats (some st) = false ∧
    simCatch acc objs m (some st) = simCatch acc objs m none ∧
    effectiveMisses m (some st) = m := by
  have hv : hasValidStats (some st) = false := by
    simp [hasValidStats, statsValid, hg, ho, hme, hgd, hpf, hmi, hl]
  have hv2 : statsValid st = false := hv
  exact ⟨hv, by simp [simCatch, hasValidStats, hv2], by simp [effectiveMisses, hv]⟩

/-- Witness for C10: `small_tick_hit = 5`, everything else 0. -/
theorem catch_small_tick_only_uses_fallback_witness :
    hasValidStats (some ⟨0, 0, 0, 0, 0, 0, 0, 5, 0⟩) = false ∧
    simCatch 1 [] 4 (some ⟨0, 0, 0, 0, 0, 0, 0, 5, 0⟩) = simCatch 1 [] 4 none ∧
    effectiveMisses 4 (some ⟨0, 0, 0, 0, 0, 0, 0, 5, 0⟩) = 4 :=
  catch_small_tick_only_uses_fallback ⟨0, 0, 0, 0, 0, 0, 0, 5, 0⟩ 1 [] 4
    rfl rfl rfl rfl rfl rfl rfl (Or.inl (by decide))

/-- C8: a `calculate` call on a nonexistent path returns (never raises)
an error object whose message contains the attempted absolute path. -/
theorem calculate_missing_file_error (ext : Externals) (absPath : String)
    (mode : ℤ) (mods : List String) (acc : ℚ) (combo : Option ℤ) (misses : ℤ)
    (scoreVal : Option ℤ) (stats : Option Stats) :
    ∃ pre, calculate ext false absPath mode mods acc combo misses scoreVal stats =
      CalcResult.error (pre ++ absPath) :=
  ⟨"File not found: ", by simp [calculate]⟩

/-- C9: whatever the external collaborators do, an exception (modelled as
`Except.error`) raised anywhere in pipeline steps 2-9 is converted by the
outermost boundary of `calculate` into a structured error result; the
total function never re-raises. -/
theorem calculate_converts_pipeline_exceptions (ext : Externals) (absPath : String)
    (mode : ℤ) (mods : List String) (acc : ℚ) (combo : Option ℤ) (misses : ℤ)
    (scoreVal : Option ℤ) (stats : Option Stats) (e : String)
    (hmode : mode = 0 ∨ mode = 1 ∨ mode = 2 ∨ mode = 3)
    (hpipe : calcPipeline ext mode mods acc combo misses scoreVal stats =
      Except.error e) :
    calculate ext true absPath mode mods acc combo misses scoreVal stats =
      CalcResult.error e := by
  rcases hmode with h | h | h | h <;> subst h <;> simp [calculate, hpipe]

/-- A collaborator bundle whose beatmap decoding raises. -/
def failingExternals : Externals :=
  ⟨Except.error "decode failed", fun _ => false, fun b => Except.ok b, [],
   fun _ _ => Except.ok ⟨0, 0⟩, fun _ _ => Except.ok ⟨0⟩⟩

/-- Witness for C9: a decode failure surfaces as the error result. -/
theorem calculate_converts_pipeline_exceptions_witness :
    calculate failingExternals true "chart.osu" 0 [] 100 none 0 none none =
      CalcResult.error "decode failed" :=
  calculate_converts_pipeline_exceptions failingExternals "chart.osu" 0 [] 100
    none 0 none none "decode failed" (Or.inl rfl) rfl

/-- A chart with 30 fruits and one juice stream holding 10 droplets and
5 tiny droplets: `maxFruits = 30`, `maxDropletsTotal = 15`,
`maxTinyDroplets = 5`, hence `maxDroplets = 10`. -/
def catchChartExample : List CatchObject :=
  List.replicate 30 CatchObject.fruit ++
  [CatchObject.juiceStream
    (List.replicate 10 CatchNested.droplet ++ List.replicate 5 CatchNested.tinyDroplet)]

/-- C6: the Catch fallback returns exactly
`{Great: maxFruits, LargeTickHit: max(0, maxDroplets - misses),
SmallTickHit: maxTinyDroplets, Miss: misses}` with
`maxDroplets = maxDropletsTotal - maxTinyDroplets` derived from the chart
walk; the output never depends on the accuracy; and the
`maxFruits=30 / maxDroplets=10 / maxTinyDroplets=5 / misses=3` instance
gives `{Great:30, LargeTickHit:7, SmallTickHit:5, Miss:3}`. -/
theorem catch_fallback_formula (acc : ℚ) (objs : List CatchObject) (misses : ℤ)
    (h : 0 ≤ misses) :
    simCatch acc objs misses none =
      ⟨(catchMaxCounts objs).maxFruits,
       max 0 ((catchMaxCounts objs).maxDropletsTotal -
              (catchMaxCounts objs).maxTinyDroplets - misses),
       (catchMaxCounts objs).maxTinyDroplets, 0, misses⟩ ∧
    (∀ acc2 : ℚ, simCatch acc2 objs misses none = simCatch acc objs misses none) ∧
    simCatch acc catchChartExample 3 none = ⟨30, 7, 5, 0, 3⟩ := by
  refine ⟨rfl, fun acc2 => rfl, ?_⟩
  show simCatchFallback catchChartExample 3 = _
  decide

/-- Witness for C6 at the spec's example chart. -/
theorem catch_fallback_formula_witness :
    simCatch 50 catchChartExample 3 none = ⟨30, 7, 5, 0, 3⟩ :=
  (catch_fallback_formula 50 catchChartExample 3 (by decide)).2.2

/-- C2 counterexample: at `accuracyPercent = 0`, `totalObjects = 1`,
`missCount = 0`, the Taiko fallback gives `n_great = round(-1) = -1`,
clamped to `Great = 0`, but `Ok = relevant - n_great = 2`, so the counts
sum to 2, not to `totalObjects = 1`: the claim's sum invariant is false
as stated over the whole accuracy range 0..100. -/
theorem taiko_sum_fails_low_accuracy :
    ¬((simTaiko 0 1 0 none).great + (simTaiko 0 1 0 none).ok +
      (simTaiko 0 1 0 none).miss = 1) := by
  have hn : nGreatTaiko 0 1 0 = -1 := by norm_num [nGreatTaiko, pyRound]
  have hres : simTaiko 0 1 0 none = ⟨0, 2, 0⟩ := by
    show simTaikoFallback 0 1 0 = _
    simp only [simTaikoFallback, hn]
    decide
  rw [hres]
  decide

/-- C2 (amended): the Taiko fallback always returns
`Great = max(0, nGreat)`, `Ok = max(0, relevant - nGreat)`,
`Miss = missCount` with `nGreat = round((2*accuracy - 1)*relevant)` and
`relevant = totalObjects - missCount`, all counts nonnegative; the sum
equals `totalObjects` provided `accuracyPercent >= 50` (for lower
accuracies `nGreat` can go negative and the clamped sum overshoots). -/
theorem taiko_fallback_amended :
    (∀ (acc : ℚ) (total misses : ℤ) (stats : Option Stats),
      0 ≤ acc → acc ≤ 100 → 0 ≤ misses → misses ≤ total →
      hasValidStats stats = false →
      (simTaiko acc total misses stats).great = max 0 (nGreatTaiko acc total misses) ∧
      (simTaiko acc total misses stats).ok =
        max 0 ((total - misses) - nGreatTaiko acc total misses) ∧
      (simTaiko acc total misses stats).miss = misses ∧
      0 ≤ (simTaiko acc total misses stats).great ∧
      0 ≤ (simTaiko acc total misses stats).ok ∧
      0 ≤ (simTaiko acc total misses stats).miss) ∧
    (∀ (acc : ℚ) (total misses : ℤ) (stats : Option Stats),
      50 ≤ acc → acc ≤ 100 → 0 ≤ misses → misses ≤ total →
      hasValidStats stats = false →
      (simTaiko acc total misses stats).great + (simTaiko acc total misses stats).ok +
        (simTaiko acc total misses stats).miss = total) := by
  constructor
  · intro acc total misses stats h0 h100 hm0 hmt hs
    have hred : simTaiko acc total misses stats = simTaikoFallback acc total misses := by
      simp [simTaiko, hs]
    rw [hred]
    refine ⟨rfl, rfl, ?_, le_max_left 0 _, le_max_left 0 _, le_max_left 0 _⟩
    exact max_eq_right hm0
  · intro acc total misses stats h50 h100 hm0 hmt hs
    have hred : simTaiko acc total misses stats = simTaikoFallback acc total misses := by
      simp [simTaiko, hs]
    rw [hred]
    have hR0 : (0 : ℚ) ≤ ((total - misses : ℤ) : ℚ) := by
      have : (0 : ℤ) ≤ total - misses := by omega
      exact_mod_cast this
    have hg0 : 0 ≤ nGreatTaiko acc total misses := by
      apply pyRound_nonneg
      have : (0 : ℚ) ≤ 2 * (acc / 100) - 1 := by linarith
      exact mul_nonneg this hR0
    have hgR : nGreatTaiko acc total misses ≤ total - misses := by
      apply pyRound_le_of_le
      have hc : 2 * (acc / 100) - 1 ≤ 1 := by linarith
      nlinarith
    show max 0 (nGreatTaiko acc total misses) +
      max 0 ((total - misses) - nGreatTaiko acc total misses) + max 0 misses = total
    rw [max_eq_right hg0, max_eq_right (by omega), max_eq_right hm0]
    omega

/-- Witness for C2's amended theorem: the spec's own Taiko example,
accuracy 75, 100 objects, no misses, sums to 100. -/
theorem taiko_fallback_amended_witness :
    (simTaiko 75 100 0 none).great + (simTaiko 75 100 0 none).ok +
      (simTaiko 75 100 0 none).miss = 100 :=
  taiko_fallback_amended.2 75 100 0 none (by norm_num) (by norm_num)
    (by decide) (by decide) rfl

/-! ## Standard fallback band lemmas (toward C1) -/

theorem osuBandHigh_core (relAcc : ℚ) (relevant : ℤ)
    (h1 : relAcc ≤ 1) (hb : 1/4 ≤ relAcc) (hrel : 0 < relevant) :
    0 ≤ n100High relAcc relevant ∧ 0 ≤ n50High relAcc relevant ∧
    n100High relAcc relevant + n50High relAcc relevant ≤ relevant := by
  have hR : (0 : ℚ) < (relevant : ℚ) := by exact_mod_cast hrel
  have hT0 : 0 ≤ osuRatioHigh relAcc := sq_nonneg _
  have hden : (0 : ℚ) < 5 * osuRatioHigh relAcc + 4 := by linarith
  have hC0 : 0 ≤ c100High relAcc relevant := by
    unfold c100High
    apply div_nonneg _ hden.le
    have h1u : (0 : ℚ) ≤ 1 - relAcc := by linarith
    have := mul_nonneg (mul_nonneg (by norm_num : (0:ℚ) ≤ 6) hR.le) h1u
    linarith
  have hC50 : 0 ≤ c50High relAcc relevant := mul_nonneg hC0 hT0
  have hkey : c100High relAcc relevant + c50High relAcc relevant ≤ (relevant : ℚ) := by
    unfold c50High
    have hrw : c100High relAcc relevant + c100High relAcc relevant * osuRatioHigh relAcc =
        c100High relAcc relevant * (1 + osuRatioHigh relAcc) := by ring
    rw [hrw]
    unfold c100High
    rw [div_mul_eq_mul_div, div_le_iff hden]
    unfold osuRatioHigh
    have hsq : (1 - (relAcc - 1/4) / (3/4)) = (4 - 4 * relAcc) / 3 := by ring
    rw [hsq]
    have hfact : 0 ≤ (3 - 4 * (1 - relAcc)) *
        (24 * (1 - relAcc) ^ 2 - 2 * (1 - relAcc) + 12) := by
      apply mul_nonneg
      · linarith
      · nlinarith [sq_nonneg (24 * (1 - relAcc) - 1)]
    nlinarith [mul_nonneg hR.le hfact]
  refine ⟨pyRound_nonneg hC0, ?_, ?_⟩
  · have := pyRound_mono (le_add_of_nonneg_right hC50 :
      c100High relAcc relevant ≤ c100High relAcc relevant + c50High relAcc relevant)
    unfold n50High n100High
    omega
  · have hcap : pyRound (c100High relAcc relevant + c50High relAcc relevant) ≤ relevant :=
      pyRound_le_of_le hkey
    unfold n50High n100High
    omega

theorem osuBandHigh_spec (relAcc : ℚ) (total misses relevant : ℤ)
    (h1 : relAcc ≤ 1) (hb : 1/4 ≤ relAcc) (hrel : 0 < relevant)
    (hm0 : 0 ≤ misses) (he : relevant = total - misses) :
    0 ≤ (osuBandHigh relAcc total misses relevant).great ∧
    0 ≤ (osuBandHigh relAcc total misses relevant).ok ∧
    0 ≤ (osuBandHigh relAcc total misses relevant).meh ∧
    0 ≤ (osuBandHigh relAcc total misses relevant).miss ∧
    (osuBandHigh relAcc total misses relevant).great +
      (osuBandHigh relAcc total misses relevant).ok +
      (osuBandHigh relAcc total misses relevant).meh +
      (osuBandHigh relAcc total misses relevant).miss = total := by
  obtain ⟨ha, hb', hc⟩ := osuBandHigh_core relAcc relevant h1 hb hrel
  unfold osuBandHigh
  refine ⟨le_max_left 0 _, le_max_left 0 _, le_max_left 0 _, le_max_left 0 _, ?_⟩
  show max 0 (total - n100High relAcc relevant - n50High relAcc relevant - misses) +
    max 0 (n100High relAcc relevant) + max 0 (n50High relAcc relevant) +
    max 0 misses = total
  rw [max_eq_right (by omega : (0:ℤ) ≤ total - n100High relAcc relevant -
        n50High relAcc relevant - misses),
      max_eq_right ha, max_eq_right hb', max_eq_right hm0]
  omega

theorem osuBandMid_core (relAcc : ℚ) (relevant : ℤ)
    (h16 : 1/6 ≤ relAcc) (hlt : relAcc < 1/4) (hrel : 0 < relevant) :
    0 ≤ n100Mid relAcc relevant ∧ 0 ≤ n50Mid relAcc relevant ∧
    n100Mid relAcc relevant + n50Mid relAcc relevant = relevant := by
  have hR : (0 : ℚ) < (relevant : ℚ) := by exact_mod_cast hrel
  have hC0 : 0 ≤ c100Mid relAcc relevant := by
    unfold c100Mid
    nlinarith
  have hsum : c100Mid relAcc relevant + c50Mid relAcc relevant = ((relevant : ℤ) : ℚ) := by
    unfold c50Mid
    ring
  have hround : pyRound (c100Mid relAcc relevant + c50Mid relAcc relevant) = relevant := by
    rw [hsum, pyRound_intCast]
  have hC1 : c100Mid relAcc relevant ≤ ((relevant : ℤ) : ℚ) := by
    unfold c100Mid
    nlinarith
  have hcap : n100Mid relAcc relevant ≤ relevant := pyRound_le_of_le hC1
  refine ⟨pyRound_nonneg hC0, ?_, ?_⟩
  · unfold n50Mid
    rw [hround]
    omega
  · unfold n50Mid
    rw [hround]
    omega

theorem osuBandMid_spec (relAcc : ℚ) (total misses relevant : ℤ)
    (h16 : 1/6 ≤ relAcc) (hlt : relAcc < 1/4) (hrel : 0 < relevant)
    (hm0 : 0 ≤ misses) (he : relevant = total - misses) :
    0 ≤ (osuBandMid relAcc total misses relevant).great ∧
    0 ≤ (osuBandMid relAcc total misses relevant).ok ∧
    0 ≤ (osuBandMid relAcc total misses relevant).meh ∧
    0 ≤ (osuBandMid relAcc total misses relevant).miss ∧
    (osuBandMid relAcc total misses relevant).great +
      (osuBandMid relAcc total misses relevant).ok +
      (osuBandMid relAcc total misses relevant).meh +
      (osuBandMid relAcc total misses relevant).miss = total := by
  obtain ⟨ha, hb', hc⟩ := osuBandMid_core relAcc relevant h16 hlt hrel
  unfold osuBandMid
  refine ⟨le_max_left 0 _, le_max_left 0 _, le_max_left 0 _, le_max_left 0 _, ?_⟩
  show max 0 (total - n100Mid relAcc relevant - n50Mid relAcc relevant - misses) +
    max 0 (n100Mid relAcc relevant) + max 0 (n50Mid relAcc relevant) +
    max 0 misses = total
  rw [max_eq_right (by omega : (0:ℤ) ≤ total - n100Mid relAcc relevant -
        n50Mid relAcc relevant - misses),
      max_eq_right ha, max_eq_right hb', max_eq_right hm0]
  omega

theorem osuBandLow_core (relAcc : ℚ) (relevant : ℤ)
    (h0 : 0 ≤ relAcc) (hlt : relAcc < 1/6) (hrel : 0 < relevant) :
    0 ≤ n50Low relAcc relevant ∧ n50Low relAcc relevant ≤ relevant := by
  have hR : (0 : ℚ) < (relevant : ℚ) := by exact_mod_cast hrel
  constructor
  · apply pyRound_nonneg
    have := mul_nonneg (mul_nonneg (by norm_num : (0:ℚ) ≤ 6) hR.le) h0
    linarith
  · apply pyRound_le_of_le
    nlinarith

theorem osuBandLow_spec (relAcc : ℚ) (total misses relevant : ℤ)
    (h0 : 0 ≤ relAcc) (hlt : relAcc < 1/6) (hrel : 0 < relevant)
    (hm0 : 0 ≤ misses) (he : relevant = total - misses) :
    0 ≤ (osuBandLow relAcc total relevant).great ∧
    0 ≤ (osuBandLow relAcc total relevant).ok ∧
    0 ≤ (osuBandLow relAcc total relevant).meh ∧
    0 ≤ (osuBandLow relAcc total relevant).miss ∧
    (osuBandLow relAcc total relevant).great +
      (osuBandLow relAcc total relevant).ok +
      (osuBandLow relAcc total relevant).meh +
      (osuBandLow relAcc total relevant).miss = total := by
  obtain ⟨ha, hb'⟩ := osuBandLow_core relAcc relevant h0 hlt hrel
  unfold osuBandLow
  refine ⟨le_max_left 0 _, le_max_left 0 _, le_max_left 0 _, le_max_left 0 _, ?_⟩
  show max 0 (total - 0 - n50Low relAcc relevant - (total - n50Low relAcc relevant)) +
    max 0 0 + max 0 (n50Low relAcc relevant) + max 0 (total - n50Low relAcc relevant) = total
  rw [max_eq_right (by omega : (0:ℤ) ≤ total - 0 - n50Low relAcc relevant -
        (total - n50Low relAcc relevant)),
      max_eq_right (le_refl (0:ℤ)), max_eq_right ha,
      max_eq_right (by omega : (0:ℤ) ≤ total - n50Low relAcc relevant)]
  omega

/-- C1: for every valid input (`0 <= accuracyPercent <= 100`,
`0 <= missCount <= totalObjects`) with no valid explicit statistics, the
Standard-mode fallback returns Great/Ok/Meh/Miss counts that are each
nonnegative and sum exactly to `totalObjects`. -/
theorem osu_fallback_counts_sum (acc : ℚ) (total misses : ℤ) (stats : Option Stats)
    (ha0 : 0 ≤ acc) (ha1 : acc ≤ 100) (hm0 : 0 ≤ misses) (hmt : misses ≤ total)
    (hs : hasValidStats stats = false) :
    0 ≤ (simOsu acc total misses stats).great ∧
    0 ≤ (simOsu acc total misses stats).ok ∧
    0 ≤ (simOsu acc total misses stats).meh ∧
    0 ≤ (simOsu acc total misses stats).miss ∧
    (simOsu acc total misses stats).great + (simOsu acc total misses stats).ok +
      (simOsu acc total misses stats).meh + (simOsu acc total misses stats).miss =
      total := by
  have hred : simOsu acc total misses stats = simOsuFallback acc total misses := by
    simp [simOsu, hs]
  rw [hred]
  unfold simOsuFallback
  by_cases hrel : total - misses ≤ 0
  · rw [if_pos hrel]
    refine ⟨le_refl 0, le_refl 0, le_refl 0, hm0, ?_⟩
    show (0 : ℤ) + 0 + 0 + misses = total
    omega
  · rw [if_neg hrel]
    have hrel' : 0 < total - misses := by omega
    have hu0 : 0 ≤ relAccOf acc total (total - misses) := le_max_left _ _
    have hu1 : relAccOf acc total (total - misses) ≤ 1 := by
      unfold relAccOf
      exact max_le (by norm_num) (min_le_left _ _)
    by_cases hb : 1/4 ≤ relAccOf acc total (total - misses)
    · rw [if_pos hb]
      exact osuBandHigh_spec _ total misses _ hu1 hb hrel' hm0 rfl
    · rw [if_neg hb]
      by_cases hb2 : 1/6 ≤ relAccOf acc total (total - misses)
      · rw [if_pos hb2]
        exact osuBandMid_spec _ total misses _ hb2 (not_le.mp hb) hrel' hm0 rfl
      · rw [if_neg hb2]
        exact osuBandLow_spec _ total misses _ hu0 (not_le.mp hb2) hrel' hm0 rfl

/-- Witness for C1 at accuracy 95, 100 objects, 3 misses. -/
theorem osu_fallback_counts_sum_witness :
    0 ≤ (simOsu 95 100 3 none).great ∧
    0 ≤ (simOsu 95 100 3 none).ok ∧
    0 ≤ (simOsu 95 100 3 none).meh ∧
    0 ≤ (simOsu 95 100 3 none).miss ∧
    (simOsu 95 100 3 none).great + (simOsu 95 100 3 none).ok +
      (simOsu 95 100 3 none).meh + (simOsu 95 100 3 none).miss = 100 :=
  osu_fallback_counts_sum 95 100 3 none (by norm_num) (by norm_num)
    (by decide) (by decide) rfl

/-! ## Mania band lemmas (toward C7) -/

/-- The five-band Mania assignment exactly as the claim states it
(specification-side definition, to be compared with the code's
`simManiaFallback`): each band rounds the upper tier from its
interpolation parameter and gives the remainder of
`relevant = totalObjects - missCount` to the lower tier, with
`Miss = missCount` unconditionally and no clamping. -/
def maniaBandsSpec (acc : ℚ) (total misses : ℤ) : ManiaCounts :=
  if 96/100 ≤ acc / 100 then
    ⟨(maniaSplit (1 - (1 - acc / 100) / (4/100)) (total - misses)).1,
     (maniaSplit (1 - (1 - acc / 100) / (4/100)) (total - misses)).2, 0, 0, 0, misses⟩
  else if 90/100 ≤ acc / 100 then
    ⟨0, (maniaSplit (1 - (96/100 - acc / 100) / (6/100)) (total - misses)).1,
     (maniaSplit (1 - (96/100 - acc / 100) / (6/100)) (total - misses)).2, 0, 0, misses⟩
  else if 80/100 ≤ acc / 100 then
    ⟨0, 0, (maniaSplit (1 - (90/100 - acc / 100) / (10/100)) (total - misses)).1,
     (maniaSplit (1 - (90/100 - acc / 100) / (10/100)) (total - misses)).2, 0, misses⟩
  else if 60/100 ≤ acc / 100 then
    ⟨0, 0, 0, (maniaSplit (1 - (80/100 - acc / 100) / (20/100)) (total - misses)).1,
     (maniaSplit (1 - (80/100 - acc / 100) / (20/100)) (total - misses)).2, misses⟩
  else
    ⟨0, 0, 0, 0, total - misses, misses⟩

theorem maniaSplit_bounds (p : ℚ) (relevant : ℤ)
    (hp0 : 0 ≤ p) (hp1 : p ≤ 1) (hr : 0 < relevant) :
    0 ≤ (maniaSplit p relevant).1 ∧ (maniaSplit p relevant).1 ≤ relevant ∧
    0 ≤ (maniaSplit p relevant).2 := by
  have hR : (0 : ℚ) < (relevant : ℚ) := by exact_mod_cast hr
  have h1 : 0 ≤ pyRound (p * (relevant : ℚ)) := pyRound_nonneg (mul_nonneg hp0 hR.le)
  have h2 : pyRound (p * (relevant : ℚ)) ≤ relevant := by
    apply pyRound_le_of_le
    nlinarith
  unfold maniaSplit
  exact ⟨h1, h2, by omega⟩

theorem simManiaFallback_eq_bands (acc : ℚ) (total misses : ℤ)
    (hm0 : 0 ≤ misses) (hrel : 0 < total - misses)
    (ha0 : 0 ≤ acc) (ha1 : acc ≤ 100) :
    simManiaFallback acc total misses = maniaBandsSpec acc total misses := by
  have hA1 : acc / 100 ≤ 1 := by linarith
  have hA0 : 0 ≤ acc / 100 := by positivity
  unfold simManiaFallback maniaBands maniaBandsSpec
  rw [if_pos hrel]
  by_cases hb1 : 96/100 ≤ acc / 100
  · obtain ⟨hx, hy, hz⟩ := maniaSplit_bounds (1 - (1 - acc / 100) / (4/100))
      (total - misses)
      (by
        have hd : (1 - acc / 100) / (4/100) = 25 * (1 - acc / 100) := by ring
        rw [hd]; linarith)
      (by
        have hd : (1 - acc / 100) / (4/100) = 25 * (1 - acc / 100) := by ring
        rw [hd]; linarith)
      hrel
    rw [if_pos hb1, if_pos hb1]
    dsimp only
    rw [max_eq_right hx, max_eq_right hz, max_self, max_eq_right hm0]
  · rw [if_neg hb1, if_neg hb1]
    by_cases hb2 : 90/100 ≤ acc / 100
    · obtain ⟨hx, hy, hz⟩ := maniaSplit_bounds (1 - (96/100 - acc / 100) / (6/100))
        (total - misses)
        (by
          have hd : (96/100 - acc / 100) / (6/100) = (50/3) * (96/100 - acc / 100) := by
            ring
          rw [hd]; nlinarith)
        (by
          have hd : (96/100 - acc / 100) / (6/100) = (50/3) * (96/100 - acc / 100) := by
            ring
          rw [hd]; nlinarith)
        hrel
      rw [if_pos hb2, if_pos hb2]
      dsimp only
      rw [max_eq_right hx, max_eq_right hz, max_self, max_eq_right hm0]
    · rw [if_neg hb2, if_neg hb2]
      by_cases hb3 : 80/100 ≤ acc / 100
      · obtain ⟨hx, hy, hz⟩ := maniaSplit_bounds (1 - (90/100 - acc / 100) / (10/100))
          (total - misses)
          (by
            have hd : (90/100 - acc / 100) / (10/100) = 10 * (90/100 - acc / 100) := by
              ring
            rw [hd]; nlinarith)
          (by
            have hd : (90/100 - acc / 100) / (10/100) = 10 * (90/100 - acc / 100) := by
              ring
            rw [hd]; nlinarith)
          hrel
        rw [if_pos hb3, if_pos hb3]
        dsimp only
        rw [max_eq_right hx, max_eq_right hz, max_self, max_eq_right hm0]
      · rw [if_neg hb3, if_neg hb3]
        by_cases hb4 : 60/100 ≤ acc / 100
        · obtain ⟨hx, hy, hz⟩ := maniaSplit_bounds (1 - (80/100 - acc / 100) / (20/100))
            (total - misses)
            (by
              have hd : (80/100 - acc / 100) / (20/100) = 5 * (80/100 - acc / 100) := by
                ring
              rw [hd]; nlinarith)
            (by
              have hd : (80/100 - acc / 100) / (20/100) = 5 * (80/100 - acc / 100) := by
                ring
              rw [hd]; nlinarith)
            hrel
          rw [if_pos hb4, if_pos hb4]
          dsimp only
          rw [max_eq_right hx, max_eq_right hz, max_self, max_eq_right hm0]
        · rw [if_neg hb4, if_neg hb4]
          dsimp only
          rw [max_self, max_eq_right hrel.le, max_eq_right hm0]

/-- C7: on valid inputs with `relevant > 0`, the Mania fallback assigns
counts exactly by the claim's five accuracy bands (upper tier rounded,
lower tier the remainder of `relevant`), every count is nonnegative, and
`Miss = missCount`. -/
theorem mania_fallback_bands (acc : ℚ) (total misses : ℤ) (scoreVal : Option ℤ)
    (stats : Option Stats)
    (hm0 : 0 ≤ misses) (hmt : misses ≤ total) (hrel : 0 < total - misses)
    (ha0 : 0 ≤ acc) (ha1 : acc ≤ 100) (hs : hasValidStats stats = false) :
    simMania acc total misses scoreVal stats = maniaBandsSpec acc total misses ∧
    0 ≤ (simMania acc total misses scoreVal stats).perfect ∧
    0 ≤ (simMania acc total misses scoreVal stats).great ∧
    0 ≤ (simMania acc total misses scoreVal stats).good ∧
    0 ≤ (simMania acc total misses scoreVal stats).ok ∧
    0 ≤ (simMania acc total misses scoreVal stats).meh ∧
    (simMania acc total misses scoreVal stats).miss = misses := by
  have hred : simMania acc total misses scoreVal stats =
      simManiaFallback acc total misses := by
    simp [simMania, hs]
  rw [hred]
  refine ⟨simManiaFallback_eq_bands acc total misses hm0 hrel ha0 ha1, ?_⟩
  unfold simManiaFallback
  rw [if_pos hrel]
  exact ⟨le_max_left 0 _, le_max_left 0 _, le_max_left 0 _, le_max_left 0 _,
    le_max_left 0 _, max_eq_right hm0⟩

/-- Witness for C7 at the spec's Mania example: accuracy 98, 200 objects,
no misses, giving `{Perfect:100, Great:100, Good:0, Ok:0, Meh:0, Miss:0}`. -/
theorem mania_fallback_bands_witness :
    simMania 98 200 0 none none = ⟨100, 100, 0, 0, 0, 0⟩ :=
  ((mania_fallback_bands 98 200 0 none none (by decide) (by decide) (by decide)
      (by norm_num) (by norm_num) rfl).1).trans
    (by
      have hb : (96/100 : ℚ) ≤ 98 / 100 := by norm_num
      simp only [maniaBandsSpec, maniaSplit, if_pos hb]
      norm_num [pyRound, ManiaCounts.mk.injEq])

/-! Sanity examples for the Standard fallback on the spec's test vectors. -/

example : simOsu 100 100 0 none = ⟨100, 0, 0, 0⟩ := by
  have hr : osuRatioHigh 1 = 0 := by norm_num [osuRatioHigh]
  have hc : c100High 1 100 = 0 := by norm_num [c100High, hr]
  have hn100 : n100High 1 100 = 0 := by norm_num [n100High, hc, pyRound]
  have hn50 : n50High 1 100 = 0 := by
    norm_num [n50High, c50High, hc, hr, hn100, pyRound]
  have h1 : relAccOf 100 100 100 = 1 := by norm_num [relAccOf]
  have hfall : simOsu 100 100 0 none = simOsuFallback 100 100 0 := rfl
  rw [hfall]
  unfold simOsuFallback
  norm_num [h1, osuBandHigh, hn100, hn50]

example : simOsu 20 100 0 none = ⟨0, 20, 80, 0⟩ := by
  have hc : c100Mid (1/5) 100 = 20 := by norm_num [c100Mid]
  have hn100 : n100Mid (1/5) 100 = 20 := by norm_num [n100Mid, hc, pyRound]
  have hn50 : n50Mid (1/5) 100 = 80 := by
    norm_num [n50Mid, c50Mid, hc, hn100, pyRound]
  have h1 : relAccOf 20 100 100 = 1/5 := by norm_num [relAccOf]
  have hfall : simOsu 20 100 0 none = simOsuFallback 20 100 0 := rfl
  rw [hfall]
  unfold simOsuFallback
  norm_num [h1, osuBandMid, hn100, hn50]
